import Mathlib

/-!
Shallow embedding of `src/langchain/src/chat_models/chatglm.ts`, the
ChatGLM chat-model adapter: message-role translation, JWT payload
construction, request assembly for `completion`, and the response-to-result
adaptation in `_generate`.  Exceptions thrown by the TypeScript code are
modelled with `Except String`; `undefined` values with `Option`;
`console.warn` output is collected in a warning list.
-/

/-- A framework message as the adapter observes it: the string returned by
`_getType()`, the text content, and — when the message is a `ChatMessage`
instance (type "generic") — its custom `role` field.  `chatRole = none`
models a message that is not a `ChatMessage` instance. -/
structure BaseMessage where
  type : String
  content : String
  chatRole : Option String
deriving Repr, DecidableEq

/-- A vendor message: `{ role, content }`.  The TypeScript declaration
restricts `role` to "assistant" | "user", but the cast
`message.role as ChatGLMMessageRole` lets any runtime string through, so the
embedding uses `String`. -/
structure ChatGLMMessage where
  role : String
  content : String
deriving Repr, DecidableEq

/-- The request envelope `{ prompt: ChatGLMMessage[] }`. -/
structure ChatCompletionRequest where
  prompt : List ChatGLMMessage
deriving Repr, DecidableEq

/-- Token-usage counts of the response envelope. -/
structure ChatUsage where
  completion_tokens : Nat
  prompt_tokens : Nat
  total_tokens : Nat
deriving Repr, DecidableEq

/-- The `data` object of the response envelope. -/
structure ChatCompletionData where
  request_id : String
  task_id : String
  task_status : String
  choices : List ChatGLMMessage
  usage : Option ChatUsage
deriving Repr, DecidableEq

/-- The response envelope.  `_generate` accesses `result.data` with optional
chaining (`result.data?.`), so `data` is modelled as `Option`. -/
structure ChatCompletionResponse where
  code : Nat
  success : Bool
  msg : String
  data : Option ChatCompletionData
deriving Repr, DecidableEq

/-- A role together with the `console.warn` lines emitted while computing
it. -/
structure RoleWithWarnings where
  role : String
  warnings : List String
deriving Repr, DecidableEq

/-- Embeds `extractGenericMessageCustomRole`: warn when the custom role is
neither "assistant" nor "user", then return the role unchanged. -/
def extractGenericMessageCustomRole (role : String) : RoleWithWarnings :=
  if role ≠ "assistant" ∧ role ≠ "user" then
    ⟨role, ["Unknown message role: " ++ role]⟩
  else
    ⟨role, []⟩

/-- Embeds `messageToChatGLMRole`: the switch on `message._getType()`. -/
def messageToChatGLMRole (message : BaseMessage) : Except String RoleWithWarnings :=
  let type := message.type
  if type = "ai" then .ok ⟨"assistant", []⟩
  else if type = "human" then .ok ⟨"user", []⟩
  else if type = "system" then .error "System messages should not be here"
  else if type = "function" then .error "Function messages not supported"
  else if type = "generic" then
    match message.chatRole with
    | some role => .ok (extractGenericMessageCustomRole role)
    | none => .error "Invalid generic chat message"
  else .error ("Unknown message type: " ++ type)

/-- Embeds the message mapping of `_generate`:
`messages.map((message) => ({ role: messageToChatGLMRole(message), content:
message.content }))`, with the first thrown error aborting the whole map. -/
def buildPrompt : List BaseMessage → Except String (List ChatGLMMessage)
  | [] => .ok []
  | message :: rest =>
    match messageToChatGLMRole message with
    | .error e => .error e
    | .ok r =>
      match buildPrompt rest with
      | .error e => .error e
      | .ok tail => .ok (⟨r.role, message.content⟩ :: tail)

/-- Embeds `Math.round(ms / 1000)`: round-half-up division by 1000. -/
def roundDiv1000 (ms : Nat) : Nat :=
  (ms + 500) / 1000

/-- The JWT payload built by `_getJWTToken`.  `api_key` is the part of
`chatGLMApiKey` before the first `"."`; `exp` and `timestamp` are computed
from `Date.now()` (milliseconds, modelled as `nowMs`). -/
structure JWTPayload where
  api_key : String
  exp : Nat
  timestamp : Nat
deriving Repr, DecidableEq

/-- The token returned by `_getJWTToken`, with the HMAC signing of the
`jose` library abstracted to the data it signs: the protected header
fields, the payload, and the signing secret (the part of the API key after
the first `"."`). -/
structure SignedJWT where
  alg : String
  sign_type : String
  payload : JWTPayload
  secret : String
deriving Repr, DecidableEq

/-- Embeds `_getJWTToken`.  `this.chatGLMApiKey.split(".")` destructured as
`[id, secret]` takes the first two fragments; the payload sets
`exp: Math.round(Date.now() / 1000) + this.expSeconds * 1000` and
`timestamp: Math.round(Date.now() / 1000)`. -/
def getJWTToken (chatGLMApiKey : String) (expSeconds : Nat) (nowMs : Nat) : SignedJWT :=
  let parts := chatGLMApiKey.splitOn "."
  let id := parts.headD ""
  let secret := (parts.drop 1).headD ""
  { alg := "HS256"
    sign_type := "SIGN"
    payload :=
      { api_key := id
        exp := roundDiv1000 nowMs + expSeconds * 1000
        timestamp := roundDiv1000 nowMs }
    secret := secret }

/-- Embeds JavaScript falsiness of `string | undefined`: `undefined` and the
empty string are falsy. -/
def jsFalsyString : Option String → Bool
  | none => true
  | some s => s = ""

/-- Embeds the API-key handling of the `ChatGLM` constructor:
`fields?.chatGLMApiKey ?? getEnvironmentVariable("CHATGLM_API_KEY")`, then
`throw` when the result is falsy, else store it in `this.chatGLMApiKey`. -/
def constructorApiKey (fieldsKey : Option String) (envKey : Option String) :
    Except String String :=
  let chatGLMApiKey := fieldsKey.orElse (fun _ => envKey)
  if jsFalsyString chatGLMApiKey then .error "ChatGLM API key not found"
  else .ok (chatGLMApiKey.getD "")

/-- The parts of the `fetch` call issued by `completion` that the adapter
controls: URL, method, the three headers, and the request body (left as the
structured request; `JSON.stringify` is not modelled). -/
structure HttpRequest where
  url : String
  method : String
  authorization : SignedJWT
  accept : String
  contentType : String
  body : ChatCompletionRequest
deriving Repr, DecidableEq

/-- Embeds the request assembly of `completion`: POST to the fixed vendor
URL with `Authorization: await this._getJWTToken()` and
`accept: stream ? "text/event-stream" : "application/json"`. -/
def completionHttpRequest (chatGLMApiKey : String) (expSeconds : Nat) (nowMs : Nat)
    (request : ChatCompletionRequest) (stream : Bool) : HttpRequest :=
  { url := "https://open.bigmodel.cn/api/paas/v3/model-api/chatglm_turbo/invoke"
    method := "POST"
    authorization := getJWTToken chatGLMApiKey expSeconds nowMs
    accept := if stream then "text/event-stream" else "application/json"
    contentType := "application/json"
    body := request }

/-- The byte stream of a response body. -/
abbrev ByteStream : Type := List Nat

/-- What `completion` resolves to: either the wrapped body stream
(streaming branch) or the parsed JSON (non-streaming branch). -/
inductive CompletionValue where
  | streamBody (body : ByteStream)
  | jsonBody (response : ChatCompletionResponse)
deriving DecidableEq

/-- Embeds the result selection of `completion` after the `fetch` resolves:
when `stream` is true the body is wrapped into an `IterableReadableStream`
only if `response.body` is present, otherwise the method falls through and
resolves to `undefined` (`none`); when `stream` is false the parsed JSON is
returned. -/
def completionResolve (stream : Bool) (responseBody : Option ByteStream)
    (responseJson : ChatCompletionResponse) : Option CompletionValue :=
  if stream then
    match responseBody with
    | some b => some (.streamBody b)
    | none => none
  else some (.jsonBody responseJson)

/-- An `AIMessage`, reduced to the content it is constructed from
(`new AIMessage(text)` with `text` possibly `undefined`). -/
structure AIMessage where
  content : Option String
deriving Repr, DecidableEq

/-- One entry of `ChatResult.generations`. -/
structure ChatGeneration where
  text : Option String
  message : AIMessage
deriving Repr, DecidableEq

/-- The `ChatResult` returned by `_generate`, with `llmOutput` reduced to
its only field `tokenUsage`. -/
structure ChatResult where
  generations : List ChatGeneration
  tokenUsage : Option ChatUsage
deriving Repr, DecidableEq

/-- Embeds the response handling of `_generate`:
`text = result.data?.choices[0]?.content`, one generation pushed with that
text and `new AIMessage(text)`, and `llmOutput.tokenUsage =
result.data?.usage`. -/
def generateResult (result : ChatCompletionResponse) : ChatResult :=
  let text := result.data.bind (fun d => (d.choices.head?).map ChatGLMMessage.content)
  { generations := [⟨text, ⟨text⟩⟩]
    tokenUsage := result.data.bind (fun d => d.usage) }

/-- The custom-role extractor returns the input role in both branches. -/
lemma extractGenericMessageCustomRole_role (role : String) :
    (extractGenericMessageCustomRole role).role = role := by
  unfold extractGenericMessageCustomRole
  split <;> rfl

/-- Any role successfully produced by `messageToChatGLMRole` is
"assistant", "user", or the custom role of a generic `ChatMessage`. -/
lemma messageToChatGLMRole_ok_role (m : BaseMessage) (r : RoleWithWarnings)
    (h : messageToChatGLMRole m = .ok r) :
    r.role = "assistant" ∨ r.role = "user" ∨
      (m.type = "generic" ∧ m.chatRole = some r.role) := by
  unfold messageToChatGLMRole at h
  by_cases hai : m.type = "ai"
  · simp [hai] at h
    subst h
    left; rfl
  · by_cases hhu : m.type = "human"
    · simp [hai, hhu] at h
      subst h
      right; left; rfl
    · by_cases hsy : m.type = "system"
      · simp [hai, hhu, hsy] at h
      · by_cases hfn : m.type = "function"
        · simp [hai, hhu, hsy, hfn] at h
        · by_cases hge : m.type = "generic"
          · simp [hai, hhu, hsy, hfn, hge] at h
            cases hcr : m.chatRole with
            | none => rw [hcr] at h; simp at h
            | some role =>
              rw [hcr] at h
              simp at h
              right; right
              refine ⟨hge, ?_⟩
              rw [← h, extractGenericMessageCustomRole_role]
          · simp [hai, hhu, hsy, hfn, hge] at h

/-- Claim C5: for every message of type "system" and every message of type
"function", `messageToChatGLMRole` throws and never returns a role. -/
theorem c5_system_function_messages_throw (m : BaseMessage) :
    (m.type = "system" →
      messageToChatGLMRole m = .error "System messages should not be here") ∧
    (m.type = "function" →
      messageToChatGLMRole m = .error "Function messages not supported") := by
  constructor <;> intro h <;> simp [messageToChatGLMRole, h]

/-- Witness for C5 at a concrete system message and a concrete
function-call message. -/
theorem c5_witness :
    messageToChatGLMRole ⟨"system", "x", none⟩ =
      .error "System messages should not be here" ∧
    messageToChatGLMRole ⟨"function", "y", none⟩ =
      .error "Function messages not supported" :=
  ⟨(c5_system_function_messages_throw ⟨"system", "x", none⟩).1 rfl,
   (c5_system_function_messages_throw ⟨"function", "y", none⟩).2 rfl⟩

/-- Claim C6: a generic `ChatMessage` whose custom role is neither
"assistant" nor "user" yields a warning, no thrown error, and the role
unchanged. -/
theorem c6_unknown_custom_role_warns_not_throws (role content : String)
    (h1 : role ≠ "assistant") (h2 : role ≠ "user") :
    messageToChatGLMRole ⟨"generic", content, some role⟩ =
      .ok ⟨role, ["Unknown message role: " ++ role]⟩ := by
  simp [messageToChatGLMRole, extractGenericMessageCustomRole, h1, h2]

/-- Witness for C6 at the custom role "moderator". -/
theorem c6_witness :
    messageToChatGLMRole ⟨"generic", "hi", some "moderator"⟩ =
      .ok ⟨"moderator", ["Unknown message role: moderator"]⟩ :=
  c6_unknown_custom_role_warns_not_throws "moderator" "hi" (by decide) (by decide)

/-- Counterexample to C2 as stated: a generic `ChatMessage` has a type that
is neither "ai" nor "human", yet `messageToChatGLMRole` returns a role for
it instead of throwing. -/
theorem c2_counterexample :
    (⟨"generic", "hi", some "user"⟩ : BaseMessage).type ≠ "ai" ∧
    (⟨"generic", "hi", some "user"⟩ : BaseMessage).type ≠ "human" ∧
    messageToChatGLMRole ⟨"generic", "hi", some "user"⟩ = .ok ⟨"user", []⟩ :=
  ⟨by decide, by decide, rfl⟩

/-- Claim C2 (amended): "ai" maps to "assistant" and "human" to "user";
"system", "function", unknown types, and generic messages that are not
`ChatMessage` instances all throw; a generic `ChatMessage` instance does
not throw and yields its custom role. -/
theorem c2_role_mapping (m : BaseMessage) :
    (m.type = "ai" → messageToChatGLMRole m = .ok ⟨"assistant", []⟩) ∧
    (m.type = "human" → messageToChatGLMRole m = .ok ⟨"user", []⟩) ∧
    (m.type ≠ "ai" → m.type ≠ "human" → m.type ≠ "generic" →
      ∃ e, messageToChatGLMRole m = .error e) ∧
    (m.type = "generic" → m.chatRole = none →
      messageToChatGLMRole m = .error "Invalid generic chat message") ∧
    (∀ r, m.type = "generic" → m.chatRole = some r →
      messageToChatGLMRole m = .ok (extractGenericMessageCustomRole r)) := by
  refine ⟨fun h => by simp [messageToChatGLMRole, h],
          fun h => by simp [messageToChatGLMRole, h], ?_, ?_, ?_⟩
  · intro hai hhu hge
    by_cases hsy : m.type = "system"
    · exact ⟨"System messages should not be here",
        by simp [messageToChatGLMRole, hai, hhu, hsy]⟩
    · by_cases hfn : m.type = "function"
      · exact ⟨"Function messages not supported",
          by simp [messageToChatGLMRole, hai, hhu, hsy, hfn]⟩
      · exact ⟨"Unknown message type: " ++ m.type,
          by simp [messageToChatGLMRole, hai, hhu, hsy, hfn, hge]⟩
  · intro hge hcr
    simp [messageToChatGLMRole, hge, hcr]
  · intro r hge hcr
    simp [messageToChatGLMRole, hge, hcr]

/-- Witness for C2 (amended) at a concrete AI message. -/
theorem c2_witness :
    messageToChatGLMRole ⟨"ai", "x", none⟩ = .ok ⟨"assistant", []⟩ :=
  (c2_role_mapping ⟨"ai", "x", none⟩).1 rfl

/-- Counterexample to C4 as stated: the `chatGLMApiKey` field is set (to
the empty string) and the environment variable is set to a usable key, yet
the constructor throws. -/
theorem c4_counterexample :
    (some "" : Option String).isSome = true ∧
    (some "realkey" : Option String).isSome = true ∧
    constructorApiKey (some "") (some "realkey") =
      .error "ChatGLM API key not found" :=
  ⟨rfl, rfl, rfl⟩

/-- Claim C4 (amended): the constructor throws iff the resolved key — the
`chatGLMApiKey` field when present (even when empty), else the environment
value — is absent or the empty string; otherwise `chatGLMApiKey` is set to
the resolved key. -/
theorem c4_api_key_resolution (fieldsKey envKey : Option String) :
    (∀ k, fieldsKey.orElse (fun _ => envKey) = some k → k ≠ "" →
      constructorApiKey fieldsKey envKey = .ok k) ∧
    (fieldsKey.orElse (fun _ => envKey) = none ∨
        fieldsKey.orElse (fun _ => envKey) = some "" →
      constructorApiKey fieldsKey envKey = .error "ChatGLM API key not found") := by
  constructor
  · intro k hk hne
    simp [constructorApiKey, hk, jsFalsyString, hne]
  · rintro (h | h) <;> simp [constructorApiKey, h, jsFalsyString]

/-- Witness for C4 (amended): a key taken from the environment. -/
theorem c4_witness :
    constructorApiKey none (some "env.key") = .ok "env.key" :=
  (c4_api_key_resolution none (some "env.key")).1 "env.key" rfl (by decide)

/-- Claim C1: the code sets `exp = Math.round(Date.now() / 1000) +
this.expSeconds * 1000`, mixing a seconds-based issuance time with a
window scaled by 1000, so the token expires `expSeconds * 1000` seconds
after issuance instead of `expSeconds` seconds: at `expSeconds = 3600` and
`Date.now() = 1700000000000` the payload has `exp = 1700000000 + 3600000`,
not `1700000000 + 3600`. -/
theorem c1_exp_window_unit_bug :
    (getJWTToken "id.secret" 3600 1700000000000).payload.timestamp = 1700000000 ∧
    (getJWTToken "id.secret" 3600 1700000000000).payload.exp =
      1700000000 + 3600 * 1000 ∧
    (getJWTToken "id.secret" 3600 1700000000000).payload.exp ≠
      1700000000 + 3600 :=
  ⟨rfl, rfl, by decide⟩

/-- Counterexample to C3 as stated: a generic `ChatMessage` carrying the
custom role "moderator" puts the role "moderator" — outside the closed set
{"assistant", "user"} — into the request prompt. -/
theorem c3_counterexample :
    buildPrompt [⟨"generic", "hello", some "moderator"⟩] =
      .ok [⟨"moderator", "hello"⟩] ∧
    ("moderator" : String) ≠ "assistant" ∧ ("moderator" : String) ≠ "user" :=
  ⟨rfl, by decide, by decide⟩

/-- Claim C3 (amended): every role in a successfully built prompt is
"assistant", "user", or the verbatim custom role of some generic
`ChatMessage` in the input; roles outside the closed set can be sent
exactly when generic messages carry them. -/
theorem c3_prompt_roles (messages : List BaseMessage)
    (prompt : List ChatGLMMessage) (h : buildPrompt messages = .ok prompt) :
    ∀ g ∈ prompt, g.role = "assistant" ∨ g.role = "user" ∨
      ∃ m ∈ messages, m.type = "generic" ∧ m.chatRole = some g.role := by
  induction messages generalizing prompt with
  | nil =>
    simp only [buildPrompt] at h
    cases h
    simp
  | cons m rest ih =>
    simp only [buildPrompt] at h
    cases hr : messageToChatGLMRole m with
    | error e => rw [hr] at h; simp at h
    | ok r =>
      rw [hr] at h
      cases ht : buildPrompt rest with
      | error e => rw [ht] at h; simp at h
      | ok tail =>
        rw [ht] at h
        simp only [Except.ok.injEq] at h
        subst h
        intro g hg
        rcases List.mem_cons.mp hg with hg | hg
        · subst hg
          rcases messageToChatGLMRole_ok_role m r hr with h1 | h1 | ⟨h1, h2⟩
          · left; exact h1
          · right; left; exact h1
          · right; right
            exact ⟨m, List.mem_cons_self m rest, h1, h2⟩
        · rcases ih tail ht g hg with h1 | h1 | ⟨m', hm', h1, h2⟩
          · left; exact h1
          · right; left; exact h1
          · right; right
            exact ⟨m', List.mem_cons_of_mem m hm', h1, h2⟩

/-- Witness for C3 (amended): the prompt built from one human message. -/
theorem c3_witness :
    (⟨"user", "hi"⟩ : ChatGLMMessage).role = "assistant" ∨
    (⟨"user", "hi"⟩ : ChatGLMMessage).role = "user" ∨
    ∃ m ∈ [(⟨"human", "hi", none⟩ : BaseMessage)],
      m.type = "generic" ∧ m.chatRole = some (⟨"user", "hi"⟩ : ChatGLMMessage).role :=
  c3_prompt_roles [⟨"human", "hi", none⟩] [⟨"user", "hi"⟩] rfl
    ⟨"user", "hi"⟩ (List.mem_singleton.mpr rfl)

/-- Claim C7: a successfully built prompt has the same length as the input
message list, and the entry at every index carries the translated role and
the original content of the message at that index. -/
theorem c7_prompt_same_length_order (messages : List BaseMessage)
    (prompt : List ChatGLMMessage) (h : buildPrompt messages = .ok prompt) :
    prompt.length = messages.length ∧
    ∀ i, i < messages.length →
      ∃ m r, messages[i]? = some m ∧ messageToChatGLMRole m = .ok r ∧
        prompt[i]? = some ⟨r.role, m.content⟩ := by
  induction messages generalizing prompt with
  | nil =>
    simp only [buildPrompt] at h
    cases h
    exact ⟨rfl, fun i hi => absurd hi (by simp)⟩
  | cons m rest ih =>
    simp only [buildPrompt] at h
    cases hr : messageToChatGLMRole m with
    | error e => rw [hr] at h; simp at h
    | ok r =>
      rw [hr] at h
      cases ht : buildPrompt rest with
      | error e => rw [ht] at h; simp at h
      | ok tail =>
        rw [ht] at h
        simp only [Except.ok.injEq] at h
        subst h
        obtain ⟨hlen, hidx⟩ := ih tail ht
        refine ⟨by simp [hlen], ?_⟩
        intro i hi
        cases i with
        | zero => exact ⟨m, r, by simp, hr, by simp⟩
        | succ j =>
          have hj : j < rest.length := by simpa using hi
          obtain ⟨m', r', h1, h2, h3⟩ := hidx j hj
          exact ⟨m', r', by simpa using h1, h2, by simpa using h3⟩

/-- Witness for C7 at a two-message conversation. -/
theorem c7_witness :
    ([⟨"user", "hi"⟩, ⟨"assistant", "yo"⟩] : List ChatGLMMessage).length =
      ([⟨"human", "hi", none⟩, ⟨"ai", "yo", none⟩] : List BaseMessage).length :=
  (c7_prompt_same_length_order [⟨"human", "hi", none⟩, ⟨"ai", "yo", none⟩]
    [⟨"user", "hi"⟩, ⟨"assistant", "yo"⟩] rfl).1

/-- Claim C8: the `accept` header is "text/event-stream" when streaming and
"application/json" otherwise, and the `Authorization` header is the signed
JWT produced by `_getJWTToken`. -/
theorem c8_completion_headers (chatGLMApiKey : String) (expSeconds nowMs : Nat)
    (request : ChatCompletionRequest) (stream : Bool) :
    (stream = true →
      (completionHttpRequest chatGLMApiKey expSeconds nowMs request stream).accept =
        "text/event-stream") ∧
    (stream = false →
      (completionHttpRequest chatGLMApiKey expSeconds nowMs request stream).accept =
        "application/json") ∧
    (completionHttpRequest chatGLMApiKey expSeconds nowMs request stream).authorization =
      getJWTToken chatGLMApiKey expSeconds nowMs := by
  refine ⟨fun h => ?_, fun h => ?_, rfl⟩ <;> subst h <;> rfl

/-- Witness for C8 with streaming on. -/
theorem c8_witness :
    (completionHttpRequest "id.secret" 3600 1000 ⟨[]⟩ true).accept =
      "text/event-stream" :=
  (c8_completion_headers "id.secret" 3600 1000 ⟨[]⟩ true).1 rfl

/-- Claim C9: with `stream = true` and a bodyless HTTP response,
`completion` falls through both branches and resolves to `undefined`
(`none`), although a present body is wrapped into the stream the overload
signature promises. -/
theorem c9_stream_without_body_is_undefined
    (responseJson : ChatCompletionResponse) (body : ByteStream) :
    completionResolve true none responseJson = none ∧
    completionResolve true (some body) responseJson =
      some (.streamBody body) :=
  ⟨rfl, rfl⟩

/-- Claim C10: `_generate` always returns exactly one generation whose text
is `result.data?.choices[0]?.content` and whose message is `new
AIMessage(text)`; the text is `undefined` when `data` is absent or
`choices` is empty. -/
theorem c10_generate_one_generation (result : ChatCompletionResponse) :
    ∃ g, (generateResult result).generations = [g] ∧
      g.text = result.data.bind
        (fun d => (d.choices.head?).map ChatGLMMessage.content) ∧
      g.message = ⟨g.text⟩ ∧
      (result.data = none → g.text = none) ∧
      (∀ d, result.data = some d → d.choices = [] → g.text = none) := by
  refine ⟨_, rfl, rfl, rfl, fun h => ?_, fun d h hc => ?_⟩
  · simp [h]
  · simp [h, hc]

/-- Witness for C10 at a response with no `data` object. -/
theorem c10_witness :
    (generateResult ⟨200, true, "ok", none⟩).generations.length = 1 ∧
    ((generateResult ⟨200, true, "ok", none⟩).generations.head?).map
      ChatGeneration.text = some none := by
  obtain ⟨g, h1, h2, h3, h4, h5⟩ := c10_generate_one_generation ⟨200, true, "ok", none⟩
  rw [h1]
  exact ⟨rfl, by simp [h4 rfl]⟩
